import Mathlib

/-!
# Verification of the nri-postgresql metrics collection pipeline

Shallow embedding of the version-aware query orchestration and
result-to-entity mapping pipeline of the `metrics` package
(`PopulateMetrics`, `collectVersion`, `parseSpecialVersion`,
`PopulateInstanceMetrics`, `processDatabaseDefinitions`,
`PopulateTableMetrics`, `populateTableMetricsForDatabase`,
`PopulateIndexMetrics`, `populateIndexMetricsForDatabase`,
`PopulatePgBouncerMetrics`).

External effects (opening connections, executing SQL) are modelled by an
explicit environment `Env` mapping connection/query pairs to outcomes, and
each orchestration function is embedded as a pure function from the
environment and its inputs to a trace (connections attempted, deferred
closes registered, queries attempted, samples produced).
-/

namespace NriPostgresql

/-- A semantic version triple, as produced by `semver.ParseTolerant`. -/
structure Version where
  major : Nat
  minor : Nat
  patch : Nat
deriving DecidableEq, Repr

/-- Lexicographic `≤` on version triples (semver precedence on the numeric
core, prerelease tags out of scope). -/
def versionLe (a b : Version) : Bool :=
  if a.major ≠ b.major then a.major < b.major
  else if a.minor ≠ b.minor then a.minor < b.minor
  else a.patch ≤ b.patch

/-- Lexicographic `<` on version triples. -/
def versionLt (a b : Version) : Bool :=
  versionLe a b && !(a == b)

/-- A version-gated query definition: SQL text plus an optional inclusive
minimum and exclusive maximum version, with the record shape left to the
row model `Row`. -/
structure QueryDefinition where
  query : String
  minVersion : Option Version
  maxVersion : Option Version
deriving DecidableEq, Repr

/-- Eligibility of a definition for a resolved version: the version lies in
`[minVersion, maxVersion)`; an absent bound does not constrain. -/
def eligible (v : Version) (d : QueryDefinition) : Bool :=
  (match d.minVersion with
   | none => true
   | some lo => versionLe lo v)
  &&
  (match d.maxVersion with
   | none => true
   | some hi => versionLt v hi)

/-- A decoded result row. Identity fields are `Option`s: `none` models a row
on which the reflective tag lookup (`GetDatabaseName` etc.) fails. Metric
payload fields are irrelevant to the claims and omitted. -/
structure Row where
  databaseName : Option String
  schemaName : Option String
  tableName : Option String
  indexName : Option String
deriving DecidableEq, Repr

/-- Outcome of executing one query: an execution/decode error, or a decoded
list of rows (possibly empty). -/
inductive QueryOutcome
  | err
  | ok (rows : List Row)
deriving DecidableEq, Repr

/-- The external world: `connection.Info.NewConnection` (`none` models a
failed open, where the returned `*PGSQLConnection` is nil) and query
execution against an open connection (identified by its database name).
`versionRows` is the decoded result of the `SHOW server_version` query on
the primary connection, `primaryDb` the primary database name. -/
structure Env where
  newConnection : String → Option String
  runQuery : String → String → QueryOutcome
  versionRows : Except Unit (List (List Char))
  primaryDb : String

/-! ## String helpers (Go `strings.Contains` / `strings.Index` and slicing) -/

/-- Index of the first occurrence of `pat` in `hay`, as `strings.Index`
(`none` models Go's `-1`). -/
def indexOfSub (hay pat : List Char) : Option Nat :=
  match hay with
  | [] => if pat.isEmpty then some 0 else none
  | _ :: t =>
    if pat.isPrefixOf hay then some 0
    else (indexOfSub t pat).map (· + 1)

/-- `strings.Contains hay pat`. -/
def strContains (hay pat : List Char) : Bool :=
  (indexOfSub hay pat).isSome

/-- Split a character list on the dot character. -/
def splitOnDot : List Char → List (List Char)
  | [] => [[]]
  | c :: rest =>
    let r := splitOnDot rest
    if c = '.' then [] :: r
    else
      match r with
      | [] => [[c]]
      | h :: t => (c :: h) :: t

/-- Parse a nonempty all-digit character list as a `Nat`. -/
def parseNatDigits (cs : List Char) : Option Nat :=
  if cs.isEmpty then none
  else
    cs.foldl
      (fun acc c =>
        acc.bind fun n => if c.isDigit then some (n * 10 + (c.toNat - 48)) else none)
      (some 0)

/-- Trim leading and trailing whitespace. -/
def trimWs (cs : List Char) : List Char :=
  ((cs.dropWhile Char.isWhitespace).reverse.dropWhile Char.isWhitespace).reverse

/-- Modelled from the spec: the external tolerant semantic-version parser
(`semver.ParseTolerant` of the blang/semver dependency, which is not part of
this repository). Per the spec it "accepts versions lacking a patch
component": whitespace is trimmed, the string is split on dots, a missing
minor or patch component defaults to zero, and each present component must
be a nonempty digit string; anything else is a parse error. -/
def ParseTolerant (cs : List Char) : Except Unit Version :=
  let t := trimWs cs
  match splitOnDot t with
  | [a] =>
    match parseNatDigits a with
    | some ma => .ok ⟨ma, 0, 0⟩
    | none => .error ()
  | [a, b] =>
    match parseNatDigits a, parseNatDigits b with
    | some ma, some mi => .ok ⟨ma, mi, 0⟩
    | _, _ => .error ()
  | [a, b, c] =>
    match parseNatDigits a, parseNatDigits b, parseNatDigits c with
    | some ma, some mi, some pa => .ok ⟨ma, mi, pa⟩
    | _, _, _ => .error ()
  | _ => .error ()

/-! ## Version resolution (`collectVersion`, `parseSpecialVersion`) -/

/-- The "Ubuntu" marker token checked by `strings.Contains`. -/
def ubuntuTok : List Char := "Ubuntu".toList

/-- The " (Ubuntu" parenthetical searched for by `strings.Index`. -/
def ubuntuParenTok : List Char := " (Ubuntu".toList

/-- The "Debian" marker token checked by `strings.Contains`. -/
def debianTok : List Char := "Debian".toList

/-- The " (Debian" parenthetical searched for by `strings.Index`. -/
def debianParenTok : List Char := " (Debian".toList

/-- Outcome of version resolution. `panic` models a Go runtime panic (index
or slice out of bounds), `fail` a returned error, `ok` a parsed version. -/
inductive VersionOutcome
  | panic
  | fail
  | ok (v : Version)
deriving DecidableEq, Repr

/-- Lift a parse result to a resolution outcome. -/
def parsedOutcome (cs : List Char) : VersionOutcome :=
  match ParseTolerant cs with
  | .ok v => .ok v
  | .error _ => .fail

/-- `parseSpecialVersion(version, specialIndex)`: Go slices
`version[:specialIndex]` — a negative index (here `none`, modelling
`strings.Index` returning `-1`) is a slice-bounds panic — then parses the
prefix tolerantly. -/
def parseSpecialVersion (version : List Char) (specialIndex : Option Nat) : VersionOutcome :=
  match specialIndex with
  | none => .panic
  | some i => parsedOutcome (version.take i)

/-- `collectVersion`: on query error returns the error; otherwise indexes
`versionRows[0]` unconditionally (a panic when the row list is empty); a
string containing "Ubuntu" (checked first) or "Debian" is truncated at
`strings.Index` of " (Ubuntu" / " (Debian" via `parseSpecialVersion`;
otherwise the whole string is parsed tolerantly. -/
def collectVersion (result : Except Unit (List (List Char))) : VersionOutcome :=
  match result with
  | .error _ => .fail
  | .ok rows =>
    match rows with
    | [] => .panic
    | version :: _ =>
      if strContains version ubuntuTok then
        parseSpecialVersion version (indexOfSub version ubuntuParenTok)
      else if strContains version debianTok then
        parseSpecialVersion version (indexOfSub version debianParenTok)
      else
        parsedOutcome version

/-! ## Query definition generators

The generator functions (`generateInstanceDefinitions`,
`generateDatabaseDefinitions`, `generateLockDefinitions`,
`generateTableDefinitions`, `generateIndexDefinitions`,
`generatePgBouncerDefinitions`) live in repository files outside `src/`;
their arities are fixed by the call sites in the metrics file: the
instance/database/lock generators receive the resolved version, while the
table/index generators receive only the schema list. -/

/-- Modelled from the spec: the underlying instance-domain catalog of
version-gated definitions (the generator file is not under `src/`). Two
definitions suffice for the claims; the second carries a minimum-version
gate. -/
def instanceCatalog : List QueryDefinition :=
  [ ⟨"instanceQueryA", none, none⟩,
    ⟨"instanceQueryB", some ⟨9, 2, 0⟩, none⟩ ]

/-- Modelled from the spec: `generateInstanceDefinitions(version)` returns
the catalog filtered to the definitions whose version range contains the
resolved version. -/
def generateInstanceDefinitions (v : Version) : List QueryDefinition :=
  instanceCatalog.filter (eligible v)

/-- Modelled from the spec: the database-domain catalog (the generator file
is not under `src/`). -/
def databaseCatalog : List QueryDefinition :=
  [ ⟨"databaseQueryA", none, none⟩,
    ⟨"databaseQueryB", some ⟨9, 2, 0⟩, none⟩ ]

/-- Modelled from the spec: `generateDatabaseDefinitions(databases, version)`
filters the database catalog by the version range gates. The database list
only parameterizes the SQL text, which the claims do not inspect. -/
def generateDatabaseDefinitions (_databases : List (String × List String))
    (v : Version) : List QueryDefinition :=
  databaseCatalog.filter (eligible v)

/-- Modelled from the spec: `generateTableDefinitions(schemaList)`. Its call
site in `populateTableMetricsForDatabase` passes only the schema list — no
version — so the generator expands one definition per schema and cannot
filter by version range. -/
def generateTableDefinitions (schemaList : List String) : List QueryDefinition :=
  schemaList.map fun s => ⟨"tableQuery(" ++ s ++ ")", none, none⟩

/-- Modelled from the spec: `generateIndexDefinitions(schemaList)`. As for
tables, the call site in `populateIndexMetricsForDatabase` passes only the
schema list, so no version filtering is possible. -/
def generateIndexDefinitions (schemaList : List String) : List QueryDefinition :=
  schemaList.map fun s => ⟨"indexQuery(" ++ s ++ ")", none, none⟩

/-- Modelled from the spec: `generatePgBouncerDefinitions()` is a fixed
definition list (the pooling-proxy domain is not version-gated). -/
def generatePgBouncerDefinitions : List QueryDefinition :=
  [ ⟨"pgbouncerQueryA", none, none⟩,
    ⟨"pgbouncerQueryB", none, none⟩ ]

/-- Modelled from the spec: the table-domain definitions as the spec's
catalog describes them — version-gated, with the whole set eligible only
below version 10 ("version \"12.3\" with no table definitions eligible …;
version \"9.6.1 …\" yields the pre-10 definition set"). Used to state what
the spec claims the executed set is filtered by. -/
def specTableCatalog : List QueryDefinition :=
  [ ⟨"tableQueryPre10", none, some ⟨10, 0, 0⟩⟩ ]

/-- The table definitions the spec claims are eligible at a resolved
version: `specTableCatalog` filtered by the version range gates. -/
def specEligibleTableDefs (v : Version) : List QueryDefinition :=
  specTableCatalog.filter (eligible v)

/-! ## Identity-field extraction

`GetDatabaseName`/`GetSchemaName`/`GetTableName`/`GetIndexName` live in a
repository file outside `src/`; modelled from the spec: reflective
field-tag lookup that returns the field value on success and the zero value
`""` together with an error when the field is absent. The Boolean is `true`
exactly when the lookup succeeded. -/

/-- Modelled from the spec: extract the database-name identity field;
missing field yields `("", false)` (Go zero value plus error). -/
def GetDatabaseName (r : Row) : String × Bool :=
  (r.databaseName.getD (""), r.databaseName.isSome)

/-- Modelled from the spec: extract the schema-name identity field. -/
def GetSchemaName (r : Row) : String × Bool :=
  (r.schemaName.getD (""), r.schemaName.isSome)

/-- Modelled from the spec: extract the table-name identity field. -/
def GetTableName (r : Row) : String × Bool :=
  (r.tableName.getD (""), r.tableName.isSome)

/-- Modelled from the spec: extract the index-name identity field. -/
def GetIndexName (r : Row) : String × Bool :=
  (r.indexName.getD (""), r.indexName.isSome)

/-! ## Samples -/

/-- One `PostgresqlDatabaseSample` (or `PgBouncerSample`): the entity is
keyed by the extracted database name. -/
structure DbSample where
  database : String
deriving DecidableEq, Repr

/-- One `PostgresqlTableSample`: entity and attributes carry the extracted
database, schema and table names. -/
structure TableSample where
  database : String
  schema : String
  table : String
deriving DecidableEq, Repr

/-- One `PostgresqlIndexSample`. -/
structure IndexSample where
  database : String
  schema : String
  table : String
  index : String
deriving DecidableEq, Repr

/-- Build the table sample recorded for one row: every identity component
is the extracted value, `""` when the field is missing. -/
def tableSampleOfRow (r : Row) : TableSample :=
  ⟨(GetDatabaseName r).1, (GetSchemaName r).1, (GetTableName r).1⟩

/-- Build the index sample recorded for one row. -/
def indexSampleOfRow (r : Row) : IndexSample :=
  ⟨(GetDatabaseName r).1, (GetSchemaName r).1, (GetTableName r).1, (GetIndexName r).1⟩

/-- Build the database sample recorded for one row (missing name logged,
row still processed with the zero value). -/
def dbSampleOfRow (r : Row) : DbSample :=
  ⟨(GetDatabaseName r).1⟩

/-! ## Domain loops -/

/-- `PopulateInstanceMetrics` loop body: for each definition, run the query;
execution error → logged, `continue`; zero rows → logged, `continue`;
otherwise only row 0 is marshalled into the (single, shared) metric set.
Returns (queries attempted, rows marshalled). -/
def instanceDefsLoop (env : Env) (con : String) :
    List QueryDefinition → List String × List Row
  | [] => ([], [])
  | d :: ds =>
    let rest := instanceDefsLoop env con ds
    match env.runQuery con d.query with
    | .err => (d.query :: rest.1, rest.2)
    | .ok [] => (d.query :: rest.1, rest.2)
    | .ok (r :: _) => (d.query :: rest.1, r :: rest.2)

/-- Result of `PopulateInstanceMetrics`: `NewMetricSet` is called exactly
once, before the definition loop, and every definition marshals into that
same set; `marshalledRows` are the first rows of the successful non-empty
results, in definition order. -/
structure InstanceTrace where
  samplesCreated : Nat
  queriesAttempted : List String
  marshalledRows : List Row
deriving DecidableEq, Repr

/-- `PopulateInstanceMetrics(instanceEntity, version, connection)`. -/
def PopulateInstanceMetrics (env : Env) (con : String) (v : Version) : InstanceTrace :=
  let r := instanceDefsLoop env con (generateInstanceDefinitions v)
  ⟨1, r.1, r.2⟩

/-- `processDatabaseDefinitions`: for each definition, a query error is
logged and processing `continue`s with the next definition; every row of a
successful result is processed (missing database name logged, row still
processed with the zero value). Returns (queries attempted, samples). -/
def processDatabaseDefinitions (env : Env) (con : String) :
    List QueryDefinition → List String × List DbSample
  | [] => ([], [])
  | d :: ds =>
    let rest := processDatabaseDefinitions env con ds
    match env.runQuery con d.query with
    | .err => (d.query :: rest.1, rest.2)
    | .ok rows => (d.query :: rest.1, rows.map dbSampleOfRow ++ rest.2)

/-- `populateTableMetricsForDatabase` loop body over
`generateTableDefinitions(schemaList)`: a query error is logged and the
function **returns**, abandoning every remaining definition for this
database; on success every row yields a sample. -/
def tableDefsLoop (env : Env) (con : String) :
    List QueryDefinition → List String × List TableSample
  | [] => ([], [])
  | d :: ds =>
    match env.runQuery con d.query with
    | .err => ([d.query], [])
    | .ok rows =>
      let rest := tableDefsLoop env con ds
      (d.query :: rest.1, rows.map tableSampleOfRow ++ rest.2)

/-- `populateIndexMetricsForDatabase` loop body over
`generateIndexDefinitions(schemaList)`: same shape as the table loop,
including the **return** on a query error. -/
def indexDefsLoop (env : Env) (con : String) :
    List QueryDefinition → List String × List IndexSample
  | [] => ([], [])
  | d :: ds =>
    match env.runQuery con d.query with
    | .err => ([d.query], [])
    | .ok rows =>
      let rest := indexDefsLoop env con ds
      (d.query :: rest.1, rows.map indexSampleOfRow ++ rest.2)

/-- Trace of the table domain (`PopulateTableMetrics`): connection-open
attempts in order, the receivers of the `defer con.Close()` calls in
registration order (they execute LIFO at function exit; `none` is a nil
connection), queries attempted, samples produced. -/
structure TableTrace where
  connAttempts : List String
  closesRegistered : List (Option String)
  queries : List String
  samples : List TableSample
deriving DecidableEq, Repr

/-- `PopulateTableMetrics(databases, pgIntegration, ci)`: iterates the
topology; a database with an empty schema list causes `return`, abandoning
**all remaining databases**; otherwise `NewConnection` is attempted and
`defer con.Close()` is registered **before** the error check (so a failed
open still registers a close of the nil connection); an open error then
logs and `continue`s. -/
def tableLoop (env : Env) : List (String × List String) → TableTrace
  | [] => ⟨[], [], [], []⟩
  | (db, schemas) :: rest =>
    if schemas.isEmpty then ⟨[], [], [], []⟩
    else
      match env.newConnection db with
      | none =>
        let t := tableLoop env rest
        ⟨db :: t.connAttempts, none :: t.closesRegistered, t.queries, t.samples⟩
      | some con =>
        let r := tableDefsLoop env con (generateTableDefinitions schemas)
        let t := tableLoop env rest
        ⟨db :: t.connAttempts, some con :: t.closesRegistered,
          r.1 ++ t.queries, r.2 ++ t.samples⟩

/-- Trace of the index domain (`PopulateIndexMetrics`). -/
structure IndexTrace where
  connAttempts : List String
  closesRegistered : List (Option String)
  queries : List String
  samples : List IndexSample
deriving DecidableEq, Repr

/-- `PopulateIndexMetrics(databases, pgIntegration, ci)`: iterates the
topology with **no** empty-schema check — `NewConnection` is attempted for
every database; the open-error check precedes `defer con.Close()`, so a
failed open registers no close and `continue`s. -/
def indexLoop (env : Env) : List (String × List String) → IndexTrace
  | [] => ⟨[], [], [], []⟩
  | (db, schemas) :: rest =>
    match env.newConnection db with
    | none =>
      let t := indexLoop env rest
      ⟨db :: t.connAttempts, t.closesRegistered, t.queries, t.samples⟩
    | some con =>
      let r := indexDefsLoop env con (generateIndexDefinitions schemas)
      let t := indexLoop env rest
      ⟨db :: t.connAttempts, some con :: t.closesRegistered,
        r.1 ++ t.queries, r.2 ++ t.samples⟩

/-- `PopulatePgBouncerMetrics` loop body: a query error is logged and the
function **returns**; on success a row whose database name cannot be
extracted is logged and **skipped** (`continue`) — no entity or sample is
produced for it. -/
def pgBouncerDefsLoop (env : Env) (con : String) :
    List QueryDefinition → List String × List DbSample
  | [] => ([], [])
  | d :: ds =>
    match env.runQuery con d.query with
    | .err => ([d.query], [])
    | .ok rows =>
      let rest := pgBouncerDefsLoop env con ds
      (d.query :: rest.1,
        rows.filterMap (fun r => r.databaseName.map fun n => (⟨n⟩ : DbSample)) ++ rest.2)

/-- `PopulatePgBouncerMetrics(pgIntegration, con, ci)`. -/
def PopulatePgBouncerMetrics (env : Env) (con : String) : List String × List DbSample :=
  pgBouncerDefsLoop env con generatePgBouncerDefinitions

/-- The fixed administrative database name the pooling-proxy domain
connects to. -/
def pgBouncerDbName : String := "pgbouncer"

/-- The metric domains, in the order `PopulateMetrics` runs them. -/
inductive DomainTag
  | instanceDomain
  | databaseDomain
  | lockDomain
  | tableDomain
  | indexDomain
  | bouncerDomain
deriving DecidableEq, Repr

/-- `PopulateMetrics(ci, databaseList, instance, i, collectPgBouncer,
collectDbLocks)`, abstracted to the list of domains whose population
function is invoked: a failed primary open or a version resolution that
does not produce a version (error return, or panic on the out-of-bounds
paths) returns before any domain runs; otherwise instance, database,
lock (config-gated), table and index run, and the pgbouncer domain runs
only when config-gated and its dedicated connection opens. -/
def PopulateMetrics (env : Env) (collectPgBouncer collectDbLocks : Bool) :
    List DomainTag :=
  match env.newConnection env.primaryDb with
  | none => []
  | some _ =>
    match collectVersion env.versionRows with
    | .ok _ =>
      [.instanceDomain, .databaseDomain]
        ++ (if collectDbLocks then [.lockDomain] else [])
        ++ [.tableDomain, .indexDomain]
        ++ (if collectPgBouncer then
              match env.newConnection pgBouncerDbName with
              | none => []
              | some _ => [.bouncerDomain]
            else [])
    | _ => []

/-- The table-domain queries issued under a resolved version: mirrors
`PopulateMetrics`, which resolves `version` and then calls
`PopulateTableMetrics(databaseList, i, ci)` **without** passing it — the
binder `v` is therefore unused on the code path. -/
def tableQueriesIssuedAtVersion (_v : Version) (env : Env)
    (topo : List (String × List String)) : List String :=
  (tableLoop env topo).queries

/-- The index-domain queries issued under a resolved version: mirrors
`PopulateMetrics`, which calls `PopulateIndexMetrics(databaseList, i, ci)`
without the resolved version. -/
def indexQueriesIssuedAtVersion (_v : Version) (env : Env)
    (topo : List (String × List String)) : List String :=
  (indexLoop env topo).queries

/-! ## Concrete fixtures -/

/-- The bare version string "9.6.1". -/
def vs961 : List Char := "9.6.1".toList

/-- The vendor-tagged version string "9.6.1 (Ubuntu 9.6.1-1)". -/
def vs961Ubuntu : List Char := "9.6.1 (Ubuntu 9.6.1-1)".toList

/-- A version string containing the "Ubuntu" token but no parenthetical. -/
def vs961UbuntuBare : List Char := "9.6.1 Ubuntu".toList

/-- A row with every identity field present. -/
def rowFull : Row := ⟨some ("db1"), some ("public"), some ("tbl1"), some ("idx1")⟩

/-- A row whose table-name identity field is missing. -/
def rowNoTable : Row := ⟨some ("db1"), some ("public"), none, some ("idx1")⟩

/-- A row whose database-name identity field is missing. -/
def rowNoDb : Row := ⟨none, some ("public"), some ("tbl1"), some ("idx1")⟩

/-- Environment where every open succeeds and every query returns zero
rows. -/
def env0 : Env := ⟨fun db => some db, fun _ _ => .ok [], .ok [vs961], "postgres"⟩

/-- Environment where every open succeeds and every query fails. -/
def envErrQ : Env := ⟨fun db => some db, fun _ _ => .err, .ok [vs961], "postgres"⟩

/-- Environment where every connection open fails (nil connection plus
error). -/
def envFailConn : Env := ⟨fun _ => none, fun _ _ => .ok [], .ok [vs961], "postgres"⟩

/-- Environment where every query returns one row missing its database
name. -/
def envRowNoDb : Env := ⟨fun db => some db, fun _ _ => .ok [rowNoDb], .ok [vs961], "postgres"⟩

/-- Environment where every query returns two rows, the second missing its
table name. -/
def envTwoRows : Env :=
  ⟨fun db => some db, fun _ _ => .ok [rowFull, rowNoTable], .ok [vs961], "postgres"⟩

/-! ## Helper lemmas -/

/-- The tolerant parse outcome is a version or a failure, never a panic. -/
theorem parsedOutcome_ne_panic (cs : List Char) : parsedOutcome cs ≠ .panic := by
  unfold parsedOutcome
  cases h : ParseTolerant cs <;> simp

/-- The table-domain connection attempts are exactly the databases strictly
before the first empty-schema entry of the topology. -/
theorem tableLoop_connAttempts (env : Env) :
    ∀ topo : List (String × List String),
      (tableLoop env topo).connAttempts
        = (topo.takeWhile fun p => !p.2.isEmpty).map Prod.fst
  | [] => rfl
  | (db, schemas) :: rest => by
    by_cases h : schemas.isEmpty
    · simp [tableLoop, h, List.takeWhile]
    · cases hc : env.newConnection db <;>
        simp [tableLoop, h, hc, List.takeWhile, tableLoop_connAttempts env rest]

/-- The index-domain connection attempts are all the databases of the
topology, in order. -/
theorem indexLoop_connAttempts (env : Env) :
    ∀ topo : List (String × List String),
      (indexLoop env topo).connAttempts = topo.map Prod.fst
  | [] => rfl
  | (db, _) :: rest => by
    cases hc : env.newConnection db <;>
      simp [indexLoop, hc, indexLoop_connAttempts env rest]

/-- An empty-schema database contributes no queries to the index domain
(its definition list expands per schema and is empty). -/
theorem indexLoop_emptySchema_queries (env : Env) (db : String)
    (rest : List (String × List String)) :
    (indexLoop env ((db, []) :: rest)).queries = (indexLoop env rest).queries := by
  cases hc : env.newConnection db <;>
    simp [indexLoop, hc, generateIndexDefinitions, indexDefsLoop]

/-- The database domain attempts every definition's query, regardless of
per-definition errors. -/
theorem processDatabaseDefinitions_attempts (env : Env) (con : String) :
    ∀ defs : List QueryDefinition,
      (processDatabaseDefinitions env con defs).1 = defs.map fun d => d.query
  | [] => rfl
  | d :: ds => by
    cases hq : env.runQuery con d.query <;>
      simp [processDatabaseDefinitions, hq,
        processDatabaseDefinitions_attempts env con ds]

/-- The instance domain attempts every definition's query, regardless of
per-definition errors or empty results. -/
theorem instanceDefsLoop_attempts (env : Env) (con : String) :
    ∀ defs : List QueryDefinition,
      (instanceDefsLoop env con defs).1 = defs.map fun d => d.query
  | [] => rfl
  | d :: ds => by
    cases hq : env.runQuery con d.query with
    | err => simp [instanceDefsLoop, hq, instanceDefsLoop_attempts env con ds]
    | ok rows =>
      cases rows <;>
        simp [instanceDefsLoop, hq, instanceDefsLoop_attempts env con ds]

/-- The first row of a definition's result, if the query succeeded with at
least one row — the only row the instance domain consumes. -/
def firstRowOf (env : Env) (con : String) (d : QueryDefinition) : Option Row :=
  match env.runQuery con d.query with
  | .ok (r :: _) => some r
  | _ => none

/-- The rows the instance loop marshals are exactly the first rows of the
successful non-empty results, in definition order. -/
theorem instanceDefsLoop_marshalled (env : Env) (con : String) :
    ∀ defs : List QueryDefinition,
      (instanceDefsLoop env con defs).2 = defs.filterMap (firstRowOf env con)
  | [] => rfl
  | d :: ds => by
    cases hq : env.runQuery con d.query with
    | err =>
      simp [instanceDefsLoop, hq, firstRowOf, instanceDefsLoop_marshalled env con ds]
    | ok rows =>
      cases rows <;>
        simp [instanceDefsLoop, hq, firstRowOf, instanceDefsLoop_marshalled env con ds]

/-- Dropping the rows with a missing database name and sampling the rest is
the same as the pgbouncer loop's filterMap over the extracted name. -/
theorem filterMap_dbName (rows : List Row) :
    rows.filterMap (fun r => r.databaseName.map fun n => (⟨n⟩ : DbSample))
      = (rows.filter fun r => r.databaseName.isSome).map dbSampleOfRow := by
  induction rows with
  | nil => rfl
  | cons r rest ih =>
    cases h : r.databaseName <;>
      simp [h, ih, dbSampleOfRow, GetDatabaseName]

/-! ## Claims -/

/-- C1 (counterexample): at version 12.3 the spec's version-range gates
leave no table definition eligible, yet the code — whose table-domain call
chain never receives the resolved version — still issues the per-schema
table query, so the executed set is not filtered by the gates and is not
zero. -/
theorem claim1_counterexample :
    specEligibleTableDefs ⟨12, 3, 0⟩ = []
    ∧ tableQueriesIssuedAtVersion ⟨12, 3, 0⟩ env0 [("db", ["public"])]
        = ["tableQuery(public)"] := by
  constructor <;> decide

/-- C1 (amended): table-domain and index-domain query definitions are
generated from the schema list alone; the resolved version is never passed
to them, so the queries issued are identical for every resolved version
(no version-range filtering happens in these two domains). -/
theorem claim1_table_index_not_version_filtered :
    ∀ (v w : Version) (env : Env) (topo : List (String × List String)),
      tableQueriesIssuedAtVersion v env topo = tableQueriesIssuedAtVersion w env topo
      ∧ indexQueriesIssuedAtVersion v env topo = indexQueriesIssuedAtVersion w env topo :=
  fun _ _ _ _ => ⟨rfl, rfl⟩

/-- C2 (code bug, evaluated): a topology whose iteration reaches an
empty-schema database first opens zero table-domain connections — the
`return` inside the loop abandons the database with a schema as well —
although the same database alone gets its dedicated connection. -/
theorem claim2_empty_schema_aborts_table_loop :
    (tableLoop env0 [("emptydb", []), ("proddb", ["public"])]).connAttempts = []
    ∧ (tableLoop env0 [("proddb", ["public"])]).connAttempts = ["proddb"] := by
  constructor <;> decide

/-- C3 (counterexample): the index domain attempts a connection to a
database whose schema set is empty — `PopulateIndexMetrics` has no
empty-schema check — contradicting "open no connection to that database". -/
theorem claim3_counterexample :
    (indexLoop env0 [("db", [])]).connAttempts = ["db"] := by
  decide

/-- C3 (amended): the table domain attempts connections exactly for the
databases strictly before the first empty-schema entry (an empty-schema
database gets no connection, but neither does anything after it); the index
domain attempts a connection to every database, including empty-schema
ones, though an empty-schema database contributes no index queries. -/
theorem claim3_amended :
    ∀ (env : Env) (topo : List (String × List String)) (db : String)
      (rest : List (String × List String)),
      (tableLoop env topo).connAttempts
          = (topo.takeWhile fun p => !p.2.isEmpty).map Prod.fst
      ∧ (indexLoop env topo).connAttempts = topo.map Prod.fst
      ∧ (indexLoop env ((db, []) :: rest)).queries = (indexLoop env rest).queries :=
  fun env topo db rest =>
    ⟨tableLoop_connAttempts env topo, indexLoop_connAttempts env topo,
      indexLoop_emptySchema_queries env db rest⟩

/-- C4 (counterexample): in the table domain, a query execution error on the
first of two definitions aborts the remaining definition — only the first
query is attempted, the second is never issued. -/
theorem claim4_counterexample :
    (tableDefsLoop envErrQ ("db") (generateTableDefinitions ["s1", "s2"])).1
        = ["tableQuery(s1)"]
    ∧ (generateTableDefinitions ["s1", "s2"]).map (fun d => d.query)
        = ["tableQuery(s1)", "tableQuery(s2)"] := by
  constructor <;> decide

/-- C4 (amended): in the instance, database and lock domains a query
execution error skips only that definition and processing continues with
the next (every definition's query is attempted); in the table, index and
pooling-proxy domains a query execution error returns, abandoning every
remaining definition of that database/domain. -/
theorem claim4_amended :
    ∀ (env : Env) (con : String) (defs : List QueryDefinition)
      (d : QueryDefinition) (ds : List QueryDefinition),
      (processDatabaseDefinitions env con defs).1 = defs.map (fun x => x.query)
      ∧ (instanceDefsLoop env con defs).1 = defs.map (fun x => x.query)
      ∧ (env.runQuery con d.query = .err →
          (tableDefsLoop env con (d :: ds)).1 = [d.query]
          ∧ (indexDefsLoop env con (d :: ds)).1 = [d.query]
          ∧ (pgBouncerDefsLoop env con (d :: ds)).1 = [d.query]) := by
  intro env con defs d ds
  refine ⟨processDatabaseDefinitions_attempts env con defs,
    instanceDefsLoop_attempts env con defs, fun hq => ?_⟩
  refine ⟨?_, ?_, ?_⟩ <;> simp [tableDefsLoop, indexDefsLoop, pgBouncerDefsLoop, hq]

/-- C4 (witness): concrete instantiation — with an always-failing query
environment the database domain still attempts both catalog queries, while
the table domain attempts only the first of two definitions. -/
theorem claim4_witness :
    (processDatabaseDefinitions envErrQ ("db") databaseCatalog).1
        = databaseCatalog.map (fun x => x.query)
    ∧ (tableDefsLoop envErrQ ("db") (⟨"q1", none, none⟩ :: [⟨"q2", none, none⟩])).1
        = ["q1"] := by
  have h := claim4_amended envErrQ ("db") databaseCatalog ⟨"q1", none, none⟩
    [⟨"q2", none, none⟩]
  exact ⟨h.1, (h.2.2 rfl).1⟩

/-- C5 (counterexample): in the pooling-proxy domain a decoded record whose
database-name identity field is missing is skipped entirely — the query
returned one row, yet no sample is produced — contradicting "the record is
still processed to an entity and a metric sample". -/
theorem claim5_counterexample :
    envRowNoDb.runQuery ("pgbouncer") ("pgbouncerQueryA") = .ok [rowNoDb]
    ∧ (pgBouncerDefsLoop envRowNoDb ("pgbouncer") [⟨"pgbouncerQueryA", none, none⟩]).2
        = [] := by
  constructor <;> decide

/-- C5 (amended): in the database, table and index domains a missing
identity field is non-fatal — every decoded row still yields exactly one
sample, with the empty string substituted for each missing identity
component (database, schema, table, or index name as the domain extracts
them); in the pooling-proxy domain a record with a missing database name is
skipped and yields no sample. -/
theorem claim5_amended :
    ∀ (env : Env) (con : String) (d : QueryDefinition) (rows : List Row),
      env.runQuery con d.query = .ok rows →
        (processDatabaseDefinitions env con [d]).2 = rows.map dbSampleOfRow
        ∧ (tableDefsLoop env con [d]).2 = rows.map tableSampleOfRow
        ∧ (indexDefsLoop env con [d]).2 = rows.map indexSampleOfRow
        ∧ (∀ r : Row,
            (r.databaseName = none →
              (dbSampleOfRow r).database = ""
              ∧ (tableSampleOfRow r).database = ""
              ∧ (indexSampleOfRow r).database = "")
            ∧ (r.schemaName = none →
              (tableSampleOfRow r).schema = ""
              ∧ (indexSampleOfRow r).schema = "")
            ∧ (r.tableName = none →
              (tableSampleOfRow r).table = ""
              ∧ (indexSampleOfRow r).table = "")
            ∧ (r.indexName = none → (indexSampleOfRow r).index = ""))
        ∧ (pgBouncerDefsLoop env con [d]).2
            = (rows.filter fun r => r.databaseName.isSome).map dbSampleOfRow := by
  intro env con d rows hq
  refine ⟨?_, ?_, ?_, ?_, ?_⟩
  · simp [processDatabaseDefinitions, hq]
  · simp [tableDefsLoop, hq]
  · simp [indexDefsLoop, hq]
  · intro r
    refine ⟨fun h => ?_, fun h => ?_, fun h => ?_, fun h => ?_⟩ <;>
      simp [dbSampleOfRow, tableSampleOfRow, indexSampleOfRow,
        GetDatabaseName, GetSchemaName, GetTableName, GetIndexName, h]
  · simp [pgBouncerDefsLoop, hq, filterMap_dbName]

/-- C5 (witness): concrete instantiation — a two-row result whose second
row lacks its table name yields two database samples, two table samples and
two index samples (one per row in each domain), the second table and index
samples carrying an empty table identity component. -/
theorem claim5_witness :
    (processDatabaseDefinitions envTwoRows ("db1") [⟨"tq", none, none⟩]).2
        = [rowFull, rowNoTable].map dbSampleOfRow
    ∧ (tableDefsLoop envTwoRows ("db1") [⟨"tq", none, none⟩]).2
        = [rowFull, rowNoTable].map tableSampleOfRow
    ∧ (indexDefsLoop envTwoRows ("db1") [⟨"tq", none, none⟩]).2
        = [rowFull, rowNoTable].map indexSampleOfRow
    ∧ (tableSampleOfRow rowNoTable).table = ""
    ∧ (indexSampleOfRow rowNoTable).table = "" := by
  have h := claim5_amended envTwoRows ("db1") ⟨"tq", none, none⟩ [rowFull, rowNoTable] rfl
  exact ⟨h.1, h.2.1, h.2.2.1,
    ((h.2.2.2.1 rowNoTable).2.2.1 rfl).1, ((h.2.2.2.1 rowNoTable).2.2.1 rfl).2⟩

/-- C6 (counterexample): a version string containing the "Ubuntu" marker
token but no " (Ubuntu" parenthetical is sliced at `strings.Index`'s `-1`,
an out-of-bounds slice (panic) — no truncated parse is performed. -/
theorem claim6_counterexample :
    strContains vs961UbuntuBare ubuntuTok = true
    ∧ collectVersion (.ok [vs961UbuntuBare]) = .panic := by
  constructor <;> decide

/-- C6 (amended): for every version string in which the vendor marker
occurs in its parenthetical form — " (Ubuntu" when the string contains
"Ubuntu" (checked first), " (Debian" when it contains "Debian" but not
"Ubuntu" — version resolution returns exactly the tolerant parse of the
string truncated at the start of that parenthetical. A string containing
only the bare token is sliced out of bounds instead. -/
theorem claim6_amended :
    ∀ (s : List Char) (i : Nat),
      (strContains s ubuntuTok = true →
        indexOfSub s ubuntuParenTok = some i →
        collectVersion (.ok [s]) = parsedOutcome (s.take i))
      ∧ (strContains s ubuntuTok = false →
          strContains s debianTok = true →
          indexOfSub s debianParenTok = some i →
          collectVersion (.ok [s]) = parsedOutcome (s.take i)) := by
  intro s i
  constructor
  · intro h1 h2
    simp [collectVersion, h1, parseSpecialVersion, h2]
  · intro h1 h2 h3
    simp [collectVersion, h1, h2, parseSpecialVersion, h3]

/-- C6 (witness): "9.6.1 (Ubuntu 9.6.1-1)" is truncated at index 5 and
parses to 9.6.1 — identical to the tolerant parse of the bare "9.6.1". -/
theorem claim6_witness :
    collectVersion (.ok [vs961Ubuntu]) = parsedOutcome (vs961Ubuntu.take 5)
    ∧ parsedOutcome (vs961Ubuntu.take 5) = .ok ⟨9, 6, 1⟩
    ∧ parsedOutcome vs961 = .ok ⟨9, 6, 1⟩ := by
  refine ⟨(claim6_amended vs961Ubuntu 5).1 (by decide) (by decide), by decide, by decide⟩

/-- C7 (counterexample): a successful version query returning zero rows
makes `collectVersion` index `versionRows[0]` out of bounds — a panic,
which is neither a parsed Version nor a returned error value. -/
theorem claim7_counterexample :
    collectVersion (.ok []) = .panic := by
  decide

/-- C7 (amended): version resolution yields a Version or an error on a
query error and on any one-or-more-row result whose first row carries each
contained vendor marker in parenthetical form; the third path — an
out-of-bounds panic — is taken exactly on a zero-row success or a marker
token without its parenthetical. -/
theorem claim7_amended :
    ∀ (r : List Char) (rest : List (List Char)),
      (strContains r ubuntuTok = true → indexOfSub r ubuntuParenTok ≠ none) →
      (strContains r ubuntuTok = false → strContains r debianTok = true →
        indexOfSub r debianParenTok ≠ none) →
      collectVersion (.ok (r :: rest)) ≠ .panic
      ∧ collectVersion (.error ()) = .fail := by
  intro r rest h1 h2
  refine ⟨?_, rfl⟩
  unfold collectVersion
  cases hU : strContains r ubuntuTok with
  | true =>
    cases hI : indexOfSub r ubuntuParenTok with
    | none => exact absurd hI (h1 hU)
    | some i =>
      simp [hU, hI, parseSpecialVersion, parsedOutcome_ne_panic]
  | false =>
    cases hD : strContains r debianTok with
    | true =>
      cases hI : indexOfSub r debianParenTok with
      | none => exact absurd hI (h2 hU hD)
      | some i =>
        simp [hU, hD, hI, parseSpecialVersion, parsedOutcome_ne_panic]
    | false =>
      simp [hU, hD, parsedOutcome_ne_panic]

/-- C7 (witness): the plain string "9.6.1" resolves without a panic, and a
query error resolves to the error outcome. -/
theorem claim7_witness :
    collectVersion (.ok [vs961]) ≠ .panic
    ∧ collectVersion (.error ()) = .fail :=
  claim7_amended vs961 [] (by decide) (by decide)

/-- C8: if the primary connection fails to open, or version resolution does
not produce a parsed version (error return, or the panic paths), the run
returns before any metric domain is invoked — no instance, database, lock,
table, index or pooling-proxy collection happens. -/
theorem claim8_fatal_aborts_run :
    ∀ (env : Env) (collectPgBouncer collectDbLocks : Bool),
      (env.newConnection env.primaryDb = none
        ∨ ∀ v : Version, collectVersion env.versionRows ≠ .ok v) →
      PopulateMetrics env collectPgBouncer collectDbLocks = [] := by
  intro env b1 b2 h
  unfold PopulateMetrics
  cases hc : env.newConnection env.primaryDb with
  | none => rfl
  | some con =>
    cases h with
    | inl h0 => rw [hc] at h0; exact absurd h0 (by simp)
    | inr hv =>
      cases hver : collectVersion env.versionRows with
      | panic => rfl
      | fail => rfl
      | ok v => exact absurd hver (hv v)

/-- C8 (witness): with every connection open failing, the run collects
nothing. -/
theorem claim8_witness :
    PopulateMetrics envFailConn true true = [] :=
  claim8_fatal_aborts_run envFailConn true true (Or.inl rfl)

/-- C9 (code bug, evaluated): in the table domain the `defer con.Close()`
is registered before the open-error check, so a failed open still registers
a close of the nil connection — the release path dereferences nil at
function exit; the index domain checks the error first and registers no
close; the failed database's sibling is still attempted in both domains. -/
theorem claim9_nil_close_on_failed_open :
    (tableLoop envFailConn [("faildb", ["public"])]).closesRegistered = [none]
    ∧ (indexLoop envFailConn [("faildb", ["public"])]).closesRegistered = []
    ∧ (tableLoop envFailConn [("faildb", ["public"]), ("otherdb", ["s"])]).connAttempts
        = ["faildb", "otherdb"] := by
  refine ⟨?_, ?_, ?_⟩ <;> decide

/-- C10 (counterexample): with two eligible instance definitions both
returning rows (k = 2), the instance entity receives a single metric set
created before the loop — one sample, not two. -/
theorem claim10_counterexample :
    (generateInstanceDefinitions ⟨9, 6, 1⟩).length = 2
    ∧ (PopulateInstanceMetrics envTwoRows ("postgres") ⟨9, 6, 1⟩).marshalledRows.length = 2
    ∧ (PopulateInstanceMetrics envTwoRows ("postgres") ⟨9, 6, 1⟩).samplesCreated ≠ 2 := by
  refine ⟨?_, ?_, ?_⟩ <;> decide

/-- C10 (amended): each eligible instance definition consumes only the
first row of its result, but every definition marshals into the single
metric set created once before the loop — the instance entity carries
exactly one sample, whose fields accumulate from each definition's first
row. -/
theorem claim10_amended :
    ∀ (env : Env) (con : String) (v : Version),
      (PopulateInstanceMetrics env con v).samplesCreated = 1
      ∧ (PopulateInstanceMetrics env con v).marshalledRows
          = (generateInstanceDefinitions v).filterMap (firstRowOf env con) :=
  fun env con v =>
    ⟨rfl, instanceDefsLoop_marshalled env con (generateInstanceDefinitions v)⟩

end NriPostgresql
